import Mathlib

/-!
# CardioWatts — shallow embedding of the Bio-MPC V10 controller

This file embeds `src/control/mpc-v10.js` (classes `AdaptiveKalmanFilter`,
`ModeRecognition`, `SmartIntegral`, `DemandObserver`, `BioSupervisor`,
`MultiObjectiveBlender`, `MPCv10`) and the cost function of
`src/control/mpc-v9.js`, and proves/refutes the frozen claims about them.

Modelling conventions:
* JS numbers are modelled by `ℚ` (exact arithmetic).
* `Math.sqrt` (used only for the adaptive measurement noise of the Kalman
  filter) is passed in as an explicit function parameter `sqrtQ : ℚ → ℚ`;
  theorems that need it only assume it is nonnegative on nonnegative input.
* `Math.random()` is modelled by an injected list of increments: the source
  computes `dW = (Math.random() - 0.5) * 2 * Math.sqrt(dt)`; the embedding
  consumes the whole increment `dW` from an injected list `dWs : List ℚ`
  (an exhausted list yields increment 0).
* `Date.now()` is modelled by an injected timestamp parameter `now : ℚ`
  (milliseconds), per the spec's requirement that the clock be injectable.
* Mutation of `this` becomes explicit state passing: each method returns the
  updated object (paired with its JS return value when it has one).
-/

/-- `Math.max(lo, Math.min(hi, x))`, the clamping pattern used throughout
the source. -/
def clampQ (lo hi x : ℚ) : ℚ := max lo (min hi x)

theorem clampQ_le (lo hi x : ℚ) (h : lo ≤ hi) : clampQ lo hi x ≤ hi :=
  max_le h (min_le_left _ _)

theorem le_clampQ (lo hi x : ℚ) : lo ≤ clampQ lo hi x :=
  le_max_left _ _

/-- Insertion of one element into a sorted list (ascending), used to model
`Array.prototype.sort((a, b) => a - b)`. -/
def sortInsert (x : ℚ) : List ℚ → List ℚ
  | [] => [x]
  | y :: ys => if x ≤ y then x :: y :: ys else y :: sortInsert x ys

/-- Ascending sort, modelling `predictions.sort((a, b) => a - b)`. -/
def sortQ : List ℚ → List ℚ
  | [] => []
  | x :: xs => sortInsert x (sortQ xs)

-- ============================================
-- MODULE 1: ADAPTIVE KALMAN FILTER (mpc-v10.js lines 24-65)
-- ============================================

structure AdaptiveKalmanFilter where
  x : ℚ
  P : ℚ
  Q : ℚ
  baseR : ℚ
  R : ℚ
  history : List ℚ
deriving Repr, DecidableEq

/-- `constructor()` (lines 25-32). -/
def AdaptiveKalmanFilter.init : AdaptiveKalmanFilter :=
  { x := 70, P := 10, Q := 0.5, baseR := 3.0, R := 3.0, history := [] }

/-- `update(measuredHR)` (lines 34-53).  Returns the new filter state; the
JS return value is the `x` field of the result. -/
def AdaptiveKalmanFilter.update (sqrtQ : ℚ → ℚ) (f : AdaptiveKalmanFilter)
    (measuredHR : ℚ) : AdaptiveKalmanFilter :=
  let hist0 := f.history ++ [measuredHR]
  let hist := if 5 < hist0.length then hist0.tail else hist0
  let R :=
    if 5 ≤ hist.length then
      let mean := hist.sum / 5
      let variance := (hist.map (fun v => (v - mean) ^ 2)).sum / 5
      let noiseFactor := sqrtQ variance / 2.0
      f.baseR * (1 + min noiseFactor 2.0)
    else f.R
  let xPred := f.x
  let PPred := f.P + f.Q
  let K := PPred / (PPred + R)
  { f with
    history := hist
    R := R
    x := xPred + K * (measuredHR - xPred)
    P := (1 - K) * PPred }

/-- `reset(initialHR = 70)` (lines 55-60). -/
def AdaptiveKalmanFilter.reset (f : AdaptiveKalmanFilter) (initialHR : ℚ) :
    AdaptiveKalmanFilter :=
  { f with x := initialHR, P := 10, R := f.baseR, history := [] }

-- ============================================
-- MODULE 2: MODE RECOGNITION (mpc-v10.js lines 70-117)
-- ============================================

inductive Mode
  | RAMP
  | STEADY
  | RECOVERY
deriving Repr, DecidableEq

structure ModeRecognition where
  currentMode : Mode
  hysteresisCounter : ℕ
deriving Repr, DecidableEq

/-- `constructor()` (lines 71-74). -/
def ModeRecognition.init : ModeRecognition :=
  { currentMode := .STEADY, hysteresisCounter := 0 }

/-- The detection rule of `detect` (lines 79-94): compute `detectedMode` from
the trend of the last five HR samples and last three power samples.  Falls
back to the current mode when no rule fires. -/
def ModeRecognition.classify (cur : Mode) (hrHistory powerHistory : List ℚ) :
    Mode :=
  let recent := hrHistory.drop (hrHistory.length - 5)
  let dhdt := (recent.getD 4 0 - recent.getD 0 0) / 10.0
  let recentPower := powerHistory.drop (powerHistory.length - 3)
  let powerTrend :=
    if 2 ≤ recentPower.length then
      recentPower.getD (recentPower.length - 1) 0 - recentPower.getD 0 0
    else 0
  if 1.2 < dhdt ∧ 5 < powerTrend then .RAMP
  else if dhdt < -1.0 then .RECOVERY
  else if |dhdt| < 0.5 then .STEADY
  else cur

/-- The hysteresis update of `detect` (lines 96-104): a detection that
differs from the current mode increments the counter and commits on the
third consecutive difference; a matching detection resets the counter. -/
def ModeRecognition.hysteresis (m : ModeRecognition) (detected : Mode) :
    ModeRecognition :=
  if detected ≠ m.currentMode then
    if 3 ≤ m.hysteresisCounter + 1 then
      { currentMode := detected, hysteresisCounter := 0 }
    else
      { m with hysteresisCounter := m.hysteresisCounter + 1 }
  else
    { m with hysteresisCounter := 0 }

/-- `detect(hrHistory, powerHistory)` (lines 76-107).  Returns the updated
recognizer and the JS return value (the committed mode). -/
def ModeRecognition.detect (m : ModeRecognition)
    (hrHistory powerHistory : List ℚ) : ModeRecognition × Mode :=
  if hrHistory.length < 5 then (m, m.currentMode)
  else
    let m' := m.hysteresis (ModeRecognition.classify m.currentMode hrHistory powerHistory)
    (m', m'.currentMode)

/-- `reset()` (lines 109-112). -/
def ModeRecognition.reset (_m : ModeRecognition) : ModeRecognition :=
  ModeRecognition.init

-- ============================================
-- MODULE 3: SMART INTEGRAL (mpc-v10.js lines 122-166)
-- ============================================

structure SmartIntegral where
  accumulated : ℚ
  Ki : ℚ
  maxAccum : ℚ
  lastError : ℚ
deriving Repr, DecidableEq

/-- `constructor()` (lines 123-128). -/
def SmartIntegral.init : SmartIntegral :=
  { accumulated := 0, Ki := 0.1, maxAccum := 15, lastError := 0 }

/-- `update(error, mode, atPowerLimit)` (lines 130-156).  Returns the new
state and the JS return value. -/
def SmartIntegral.update (s : SmartIntegral) (error : ℚ) (mode : Mode)
    (atPowerLimit : Bool) : SmartIntegral × ℚ :=
  if mode ≠ Mode.STEADY ∨ atPowerLimit = true then
    ({ s with accumulated := s.accumulated * 0.5, lastError := error }, 0)
  else if 2.5 < |error| then
    let s' : SmartIntegral :=
      { s with accumulated := s.accumulated * 0.8, lastError := error }
    (s', s'.Ki * s'.accumulated)
  else
    let acc0 := if error * s.lastError < 0 then s.accumulated * 0.3 else s.accumulated
    let weight : ℚ := if 0 < error then 1.5 else 1.0
    let acc1 := acc0 + error * weight * 2.0
    let acc2 := clampQ (-(s.maxAccum / s.Ki)) (s.maxAccum / s.Ki) acc1
    let s' : SmartIntegral := { s with accumulated := acc2, lastError := error }
    (s', s'.Ki * s'.accumulated)

/-- `reset()` (lines 158-161). -/
def SmartIntegral.reset (s : SmartIntegral) : SmartIntegral :=
  { s with accumulated := 0, lastError := 0 }

-- ============================================
-- MODULE 4: DEMAND OBSERVER (mpc-v10.js lines 171-255)
-- ============================================

structure ObserverState where
  demand : ℚ
  hr : ℚ
  dhdt : ℚ
deriving Repr, DecidableEq

structure ObserverParams where
  gain : ℚ
  tauDemand : ℚ
  tauRise : ℚ
  tauFall : ℚ
deriving Repr, DecidableEq

/-- The covariance matrix `P` is created as `[[10,0,0],[0,10,0],[0,0,2]]` and
only its diagonal is ever read or written, so it is embedded as the three
diagonal entries. -/
structure DemandObserver where
  state : ObserverState
  params : ObserverParams
  P00 : ℚ
  P11 : ℚ
  P22 : ℚ
  Q : ℚ
  R : ℚ
deriving Repr, DecidableEq

/-- `constructor(params)` (lines 172-189); the caller (`MPCv10`) always
passes explicit `gain`/`tauDemand`/`tauRise`/`tauFall`, so the `||` defaults
are resolved by the caller. -/
def DemandObserver.init (params : ObserverParams) : DemandObserver :=
  { state := { demand := 70, hr := 70, dhdt := 0 }
    params := params
    P00 := 10, P11 := 10, P22 := 2
    Q := 0.5, R := 2.0 }

/-- `update(measuredHR, power, dt = 2.0)` (lines 191-226).  Returns the new
observer and the JS return value (a copy of the new state). -/
def DemandObserver.update (o : DemandObserver) (measuredHR power dt : ℚ) :
    DemandObserver × ObserverState :=
  let targetDemand := power * o.params.gain + 65
  let demandPred := o.state.demand +
    (targetDemand - o.state.demand) / o.params.tauDemand * dt
  let tau := if o.state.hr < demandPred then o.params.tauRise else o.params.tauFall
  let hrPred := o.state.hr + (demandPred - o.state.hr) / tau * dt
  let dhdtPred := (hrPred - o.state.hr) / dt
  let P00 := o.P00 + o.Q
  let P11 := o.P11 + o.Q
  let P22 := o.P22 + o.Q * 0.5
  let innovation := measuredHR - hrPred
  let S := P11 + o.R
  let K := P11 / S
  let st : ObserverState :=
    { demand := clampQ 65 195 (demandPred + K * innovation * 0.3)
      hr := clampQ 60 200 (hrPred + K * innovation)
      dhdt := clampQ (-5) 5 (dhdtPred + K * innovation * 0.1) }
  ({ o with state := st, P00 := P00, P11 := (1 - K) * P11, P22 := P22 }, st)

/-- `updateParams(newParams)` (lines 228-230); the caller always supplies
`gain`, `tauRise` and `tauFall`, so `tauDemand` is the only field kept. -/
def DemandObserver.updateParams (o : DemandObserver)
    (gain tauRise tauFall : ℚ) : DemandObserver :=
  { o with params := { o.params with gain := gain, tauRise := tauRise, tauFall := tauFall } }

/-- One iteration of the forward-simulation loop of `predict`
(lines 238-241), acting on the pair `(demand, hr)`. -/
def DemandObserver.predictStep (ps : ObserverParams) (power : ℚ)
    (dh : ℚ × ℚ) : ℚ × ℚ :=
  let targetDemand := power * ps.gain + 65
  let demand := dh.1 + (targetDemand - dh.1) / ps.tauDemand * 2.0
  let tau := if dh.2 < demand then ps.tauRise else ps.tauFall
  let hr := dh.2 + (demand - dh.2) / tau * 2.0
  (demand, hr)

/-- The loop `for (let t = 0; t < horizon; t += dt)` of `predict`
(lines 237-242), with an explicit fuel bound; every call site uses a horizon
of at most 78 seconds, far below the fuel of 64 steps. -/
def DemandObserver.predictLoop (ps : ObserverParams) (power : ℚ) :
    ℕ → ℚ → ℚ → ℚ × ℚ → ℚ × ℚ
  | 0, _, _, dh => dh
  | n + 1, t, horizon, dh =>
    if t < horizon then
      DemandObserver.predictLoop ps power n (t + 2.0) horizon
        (DemandObserver.predictStep ps power dh)
    else dh

/-- `predict(power, horizon, useCurrentState = true)` (lines 232-245).
Returns `(demand, hr)` after simulating forward; does not mutate the
observer. -/
def DemandObserver.predict (o : DemandObserver) (power horizon : ℚ)
    (useCurrentState : Bool) : ℚ × ℚ :=
  let demand := if useCurrentState then o.state.demand else 70
  let hr := if useCurrentState then o.state.hr else 70
  DemandObserver.predictLoop o.params power 64 0 horizon (demand, hr)

/-- `reset()` (lines 247-250): restores the state and covariance but keeps
`params` (adapted parameters survive a reset). -/
def DemandObserver.reset (o : DemandObserver) : DemandObserver :=
  { o with
    state := { demand := 70, hr := 70, dhdt := 0 }
    P00 := 10, P11 := 10, P22 := 2 }

-- ============================================
-- MODULE 5: BIO-SUPERVISOR (mpc-v10.js lines 260-434)
-- ============================================

inductive Intent
  | TT
  | ENDURANCE
  | MEDICAL
  | TRAINING
deriving Repr, DecidableEq

structure Weights where
  alpha : ℚ
  beta : ℚ
  gamma : ℚ
deriving Repr, DecidableEq

structure Deadband where
  lower : ℚ
  upper : ℚ
deriving Repr, DecidableEq

structure SupervisorConfig where
  weights : Weights
  horizon : ℚ
  lr : ℚ
  maxVel : ℚ
  overshootPenalty : ℚ
  undershootPenalty : ℚ
  momentumPenalty : ℚ
  enableIntegral : Bool
  deadband : Deadband
deriving Repr, DecidableEq

structure BioSupervisor where
  inferredIntent : Intent
  sessionStartTime : ℚ
  sessionDuration : ℚ
  recentOvershoots : ℕ
  recentUndershoots : ℕ
  oscillationCount : ℕ
  avgError : ℚ
  lastError : ℚ
  lastPower : ℚ
  driftEstimate : ℚ
  driftOnsetTime : Option ℚ
  config : SupervisorConfig
deriving Repr, DecidableEq

/-- `getConfigByIntent(intent)` (lines 324-352). -/
def BioSupervisor.getConfigByIntent (intent : Intent) : SupervisorConfig :=
  match intent with
  | .TT =>
    { weights := { alpha := 0.70, beta := 0.20, gamma := 0.10 }
      horizon := 50, lr := 0.7, maxVel := 4.0
      overshootPenalty := 40, undershootPenalty := 15, momentumPenalty := 0.25
      enableIntegral := true, deadband := { lower := 0.5, upper := 0.2 } }
  | .ENDURANCE =>
    { weights := { alpha := 0.40, beta := 0.30, gamma := 0.30 }
      horizon := 55, lr := 0.5, maxVel := 2.5
      overshootPenalty := 25, undershootPenalty := 18, momentumPenalty := 0.45
      enableIntegral := true, deadband := { lower := 1.0, upper := 0.4 } }
  | .MEDICAL =>
    { weights := { alpha := 0.25, beta := 0.60, gamma := 0.15 }
      horizon := 60, lr := 0.4, maxVel := 2.0
      overshootPenalty := 60, undershootPenalty := 10, momentumPenalty := 0.50
      enableIntegral := true, deadband := { lower := 1.2, upper := 0.3 } }
  | .TRAINING =>
    { weights := { alpha := 0.55, beta := 0.30, gamma := 0.15 }
      horizon := 50, lr := 0.6, maxVel := 3.0
      overshootPenalty := 30, undershootPenalty := 15, momentumPenalty := 0.35
      enableIntegral := true, deadband := { lower := 0.8, upper := 0.3 } }

/-- `getDefaultConfig()` (lines 409-411). -/
def BioSupervisor.getDefaultConfig : SupervisorConfig :=
  BioSupervisor.getConfigByIntent .TRAINING

/-- `constructor()` (lines 261-277); `Date.now()` is the injected `now`. -/
def BioSupervisor.init (now : ℚ) : BioSupervisor :=
  { inferredIntent := .TRAINING
    sessionStartTime := now
    sessionDuration := 0
    recentOvershoots := 0
    recentUndershoots := 0
    oscillationCount := 0
    avgError := 0
    lastError := 0
    lastPower := 0
    driftEstimate := 0
    driftOnsetTime := none
    config := BioSupervisor.getDefaultConfig }

/-- `inferIntent(targetHR, hrMax, mode, duration)` (lines 279-296).  Note the
source recomputes `this.sessionDuration` from the clock but tests the passed
`duration` argument in the ENDURANCE condition.  The `mode` argument is
unused in the source as well. -/
def BioSupervisor.inferIntent (sup : BioSupervisor) (now targetHR hrMax : ℚ)
    (_mode : Mode) (duration : ℚ) : BioSupervisor × Intent :=
  let sessionDuration := (now - sup.sessionStartTime) / 60000
  let intensityRatio := targetHR / hrMax
  let isLongSession := 60 < sessionDuration
  let intent : Intent :=
    if 0.92 < intensityRatio then .MEDICAL
    else if 0.85 < intensityRatio ∧ ¬isLongSession then .TT
    else if isLongSession ∨ (intensityRatio < 0.75 ∧ 45 < duration) then .ENDURANCE
    else .TRAINING
  ({ sup with sessionDuration := sessionDuration, inferredIntent := intent }, intent)

/-- `getAdaptiveDeadband(error, variance)` (lines 354-361); `cfg` is the
supervisor's current `this.config` at the call site. -/
def BioSupervisor.getAdaptiveDeadband (cfg : SupervisorConfig)
    (error variance : ℚ) : Deadband :=
  if |error| < 1.5 ∧ variance < 1.5 then { lower := 1.2, upper := 0.4 }
  else if 5.0 < |error| then { lower := 0.3, upper := 0.1 }
  else cfg.deadband

/-- `adaptToPerformance()` (lines 363-376), acting on the supervisor after
its `config` has been set by `autoTune`. -/
def BioSupervisor.adaptToPerformance (sup : BioSupervisor) : BioSupervisor :=
  let sup :=
    if 5 < sup.recentOvershoots then
      { sup with
        config := { sup.config with overshootPenalty := sup.config.overshootPenalty * 1.3 }
        recentOvershoots := 0 }
    else sup
  let sup :=
    if 5 < sup.recentUndershoots then
      { sup with
        config := { sup.config with undershootPenalty := sup.config.undershootPenalty * 0.8 }
        recentUndershoots := 0 }
    else sup
  if 10 < sup.oscillationCount then
    { sup with
      config := { sup.config with momentumPenalty := sup.config.momentumPenalty * 1.4 }
      oscillationCount := 0 }
  else sup

/-- `autoTune(context)` (lines 298-322).  Returns the updated supervisor and
the JS return value `this.config`. -/
def BioSupervisor.autoTune (sup : BioSupervisor) (now : ℚ) (mode : Mode)
    (error variance targetHR hrMax : ℚ) : BioSupervisor × SupervisorConfig :=
  let (sup, intent) := sup.inferIntent now targetHR hrMax mode sup.sessionDuration
  let cfg := BioSupervisor.getConfigByIntent intent
  let cfg :=
    match mode with
    | .RAMP =>
      { cfg with horizon := cfg.horizon * 1.2, lr := cfg.lr * 1.4
                 maxVel := cfg.maxVel * 1.6, enableIntegral := false }
    | .RECOVERY =>
      { cfg with horizon := cfg.horizon * 1.3, lr := cfg.lr * 0.6
                 maxVel := cfg.maxVel * 0.5, enableIntegral := false }
    | .STEADY =>
      { cfg with enableIntegral := decide (variance < 2.0)
                 deadband := BioSupervisor.getAdaptiveDeadband cfg error variance }
  let sup := { sup with config := cfg }
  let sup := sup.adaptToPerformance
  (sup, sup.config)

structure DriftInfo where
  drift : ℚ
  isDrifting : Bool
  driftDuration : ℚ
deriving Repr, DecidableEq

/-- `detectDrift(observedHR, predictedHR, power)` (lines 378-395). -/
def BioSupervisor.detectDrift (sup : BioSupervisor) (now observedHR predictedHR power : ℚ) :
    BioSupervisor × DriftInfo :=
  let sup :=
    if |power - sup.lastPower| < 5 then
      let instantDrift := observedHR - predictedHR
      let driftEstimate := 0.95 * sup.driftEstimate + 0.05 * instantDrift
      let onset :=
        if 2.0 < |driftEstimate| ∧ sup.driftOnsetTime = none then some now
        else sup.driftOnsetTime
      { sup with driftEstimate := driftEstimate, driftOnsetTime := onset }
    else sup
  let sup := { sup with lastPower := power }
  (sup,
   { drift := sup.driftEstimate
     isDrifting := decide (2.5 < |sup.driftEstimate|)
     driftDuration :=
       match sup.driftOnsetTime with
       | some t => (now - t) / 60000
       | none => 0 })

/-- `updatePerformance(error, hr, target)` (lines 397-407).  The oscillation
test `this.lastError && error * this.lastError < 0` uses JS truthiness of
`lastError`, i.e. `lastError ≠ 0`. -/
def BioSupervisor.updatePerformance (sup : BioSupervisor) (error hr target : ℚ) :
    BioSupervisor :=
  let sup :=
    if target + 1.5 < hr then { sup with recentOvershoots := sup.recentOvershoots + 1 }
    else sup
  let sup :=
    if hr < target - 2.0 then { sup with recentUndershoots := sup.recentUndershoots + 1 }
    else sup
  let sup :=
    if sup.lastError ≠ 0 ∧ error * sup.lastError < 0 then
      { sup with oscillationCount := sup.oscillationCount + 1 }
    else sup
  { sup with
    lastError := error
    avgError := 0.9 * sup.avgError + 0.1 * |error| }

/-- `reset()` (lines 413-422); note `inferredIntent`, `sessionDuration`,
`lastError` and `lastPower` are not reset by the source. -/
def BioSupervisor.reset (sup : BioSupervisor) (now : ℚ) : BioSupervisor :=
  { sup with
    sessionStartTime := now
    recentOvershoots := 0
    recentUndershoots := 0
    oscillationCount := 0
    avgError := 0
    driftEstimate := 0
    driftOnsetTime := none
    config := BioSupervisor.getDefaultConfig }

-- ============================================
-- MODULE 6: MULTI-OBJECTIVE BLENDER (mpc-v10.js lines 439-504)
-- ============================================

/-- `blend(basePower, integralAdj, context)` (lines 444-470).  The class's
`weights` field is overwritten from the context on every call and never read
elsewhere, so the blender is embedded statelessly. -/
def MultiObjectiveBlender.blend (basePower integralAdj : ℚ) (weights : Weights)
    (mode : Mode) (lastPower : ℚ) : ℚ :=
  let trackingPower := basePower + integralAdj
  let maxChange : ℚ :=
    match mode with
    | .RAMP => 8.0
    | .RECOVERY => 3.0
    | .STEADY => 4.0
  let safetyPower := max (lastPower - maxChange) (min (lastPower + maxChange) trackingPower)
  let comfortPower := 0.3 * lastPower + 0.7 * safetyPower
  weights.alpha * trackingPower + weights.beta * safetyPower + weights.gamma * comfortPower

/-- `calculateCost(predictions, target, testPower, currentPower, config)`
(lines 472-503).  The `predictions` array is produced by the caller's
Monte-Carlo sampling; the cost itself is a deterministic function of it.
`p95` is `predictions[Math.floor(length * 0.95)]` of the ascending-sorted
array. -/
def MultiObjectiveBlender.calculateCost (predictions : List ℚ)
    (target testPower currentPower : ℚ) (config : SupervisorConfig) : ℚ :=
  let meanHR := predictions.sum / predictions.length
  let sorted := sortQ predictions
  let p05 := sorted.getD 0 0
  let p95 := sorted.getD (predictions.length * 95 / 100) 0
  let trackingError :=
    if target + config.deadband.upper < meanHR then
      meanHR - target - config.deadband.upper
    else if meanHR < target - config.deadband.lower then
      target - config.deadband.lower - meanHR
    else 0
  let trackingCost := trackingError ^ 2 * 22.0
  let overshootCost :=
    if target + 0.7 < p95 then (p95 - target) ^ 2 * config.overshootPenalty else 0
  let undershootCost :=
    if p05 < target - 1.5 then (target - p05) ^ 2 * config.undershootPenalty else 0
  let safetyCost := overshootCost + undershootCost
  let comfortCost := (testPower - currentPower) ^ 2 * config.momentumPenalty
  config.weights.alpha * trackingCost +
    config.weights.beta * safetyCost +
    config.weights.gamma * comfortCost

-- ============================================
-- V9 COST FUNCTION (mpc-v9.js lines 376-419)
-- ============================================

/-- The hard-overshoot term of the V9 cost (mpc-v9.js lines 413-414):
`(p99HR > targetHR + 1.8) ? Math.pow(p99HR - targetHR, 2) * 120 : 0`. -/
def MPCv9.overshootHard (p99HR targetHR : ℚ) : ℚ :=
  if targetHR + 1.8 < p99HR then (p99HR - targetHR) ^ 2 * 120 else 0

/-- The deterministic part of V9's `calculateCost` (mpc-v9.js lines 391-418),
as a function of the Monte-Carlo prediction set drawn on lines 383-389
(`SAMPLES` is the size of that set).  `p95HR` is
`predictions[Math.floor(SAMPLES * 0.95)]` and `p99HR` is
`predictions[SAMPLES - 1]` of the ascending-sorted array. -/
def MPCv9.calculateCost (predictions : List ℚ)
    (targetHR testPower currentPower : ℚ) : ℚ :=
  let SAMPLES := predictions.length
  let meanHR := predictions.sum / SAMPLES
  let trackingError :=
    if targetHR + 0.3 < meanHR then meanHR - targetHR - 0.3
    else if meanHR < targetHR - 0.8 then targetHR - 0.8 - meanHR
    else 0
  let sqError := trackingError ^ 2 * 22.0
  let sorted := sortQ predictions
  let p05HR := sorted.getD 0 0
  let p95HR := sorted.getD (SAMPLES * 95 / 100) 0
  let p99HR := sorted.getD (SAMPLES - 1) 0
  let undershootSoft :=
    if p05HR < targetHR - 1.5 then (targetHR - p05HR) ^ 2 * 12 else 0
  let overshootSoft :=
    if targetHR + 0.7 < p95HR then (p95HR - targetHR) ^ 2 * 30 else 0
  let momentumPenalty := (testPower - currentPower) ^ 2 * 0.35
  sqError + overshootSoft + MPCv9.overshootHard p99HR targetHR +
    undershootSoft + momentumPenalty

-- ============================================
-- MAIN CLASS: MPCv10 (mpc-v10.js lines 509-798)
-- ============================================

structure MPCParams where
  hrMin : ℚ
  hrMax : ℚ
  gain : ℚ
  tauDemand : ℚ
  tauHRRise : ℚ
  tauHRFall : ℚ
  delay : ℕ
deriving Repr, DecidableEq

structure RLSState where
  theta : ℚ
  tauRise : ℚ
  tauFall : ℚ
deriving Repr, DecidableEq

structure HistoryState where
  modelOutput : List ℚ
  hr : List ℚ
  power : List ℚ
  startTime : ℚ
deriving Repr, DecidableEq

/-- `this.state` of `MPCv10`; the source field `initialized` is named
`inited` here. -/
structure CtrlState where
  currentDemand : ℚ
  lastPower : ℚ
  momentum : ℚ
  inited : Bool
deriving Repr, DecidableEq

structure NoiseState where
  value : ℚ
  theta : ℚ
  sigma : ℚ
deriving Repr, DecidableEq

structure MPCv10 where
  outputMin : ℚ
  outputMax : ℚ
  params : MPCParams
  rls : RLSState
  history : HistoryState
  ctrl : CtrlState
  noise : NoiseState
  supervisor : BioSupervisor
  demandObserver : DemandObserver
  kalman : AdaptiveKalmanFilter
  modeRecognizer : ModeRecognition
  integral : SmartIntegral
deriving Repr, DecidableEq

/-- `constructor(config)` (lines 510-557) with the `config.outputMin || 50`,
`config.outputMax || 400`, `config.hrMax || 195` defaults already resolved
by the caller; `now` is the injected `Date.now()`. -/
def MPCv10.init (outputMin outputMax hrMax now : ℚ) : MPCv10 :=
  let params : MPCParams :=
    { hrMin := 65, hrMax := hrMax, gain := 0.45, tauDemand := 20
      tauHRRise := 25, tauHRFall := 45, delay := 4 }
  { outputMin := outputMin
    outputMax := outputMax
    params := params
    rls := { theta := params.gain, tauRise := params.tauHRRise, tauFall := params.tauHRFall }
    history := { modelOutput := [], hr := [], power := [], startTime := now }
    ctrl := { currentDemand := 65, lastPower := 100, momentum := 0, inited := false }
    noise := { value := 0, theta := 0.15, sigma := 0.1 }
    supervisor := BioSupervisor.init now
    demandObserver := DemandObserver.init
      { gain := params.gain, tauDemand := params.tauDemand
        tauRise := params.tauHRRise, tauFall := params.tauHRFall }
    kalman := AdaptiveKalmanFilter.init
    modeRecognizer := ModeRecognition.init
    integral := SmartIntegral.init }

/-- `resetRLS()` (lines 572-578). -/
def MPCv10.resetRLS (st : MPCv10) : MPCv10 :=
  { st with
    rls := { theta := st.params.gain, tauRise := st.params.tauHRRise
             tauFall := st.params.tauHRFall }
    history := { st.history with modelOutput := [], hr := [] } }

/-- `reset()` (lines 559-570).  Note the source does not touch
`this.state.currentDemand`, `this.state.lastPower`, `this.state.momentum`,
`this.noise`, or `this.demandObserver.params`. -/
def MPCv10.reset (st : MPCv10) (now : ℚ) : MPCv10 :=
  let st := { st with ctrl := { st.ctrl with inited := false } }
  let st := st.resetRLS
  let st := { st with
    supervisor := st.supervisor.reset now
    demandObserver := st.demandObserver.reset
    kalman := st.kalman.reset 70
    modeRecognizer := st.modeRecognizer.reset
    integral := st.integral.reset }
  { st with history := { st.history with startTime := now, power := [] } }

/-- `nextNoise(dt)` (lines 580-585).  The random increment
`dW = (Math.random() - 0.5) * 2 * Math.sqrt(dt)` is consumed from the
injected list `dWs` (head, default 0); returns the advanced noise state,
the remaining list and the JS return value `this.noise.value`. -/
def MPCv10.nextNoise (noise : NoiseState) (dWs : List ℚ) (dt : ℚ) :
    (NoiseState × List ℚ) × ℚ :=
  let dW := dWs.headD 0
  let dx := noise.theta * (0 - noise.value) * dt + noise.sigma * dW
  let noise' := { noise with value := noise.value + dx }
  ((noise', dWs.tail), noise'.value)

/-- `predict(power, horizonSecs, useNoise = false)` (lines 587-595), with the
noise state and increment list threaded explicitly.  Returns
`((demand, hr), (noise state, remaining increments))`. -/
def MPCv10.predictN (st : MPCv10) (noise : NoiseState) (dWs : List ℚ)
    (power horizonSecs : ℚ) (useNoise : Bool) : (ℚ × ℚ) × (NoiseState × List ℚ) :=
  let prediction := st.demandObserver.predict power horizonSecs true
  if useNoise then
    let ((noise', dWs'), v) := MPCv10.nextNoise noise dWs 2.0
    ((prediction.1, prediction.2 + v * 5), (noise', dWs'))
  else
    (prediction, (noise, dWs))

/-- `updateAdaptation(currentPower, currentHR)` (lines 597-638).  The Smith
model output `this.history.modelOutput[0] || currentHR` uses JS truthiness:
a missing head or a head equal to 0 falls back to `currentHR`. -/
def MPCv10.updateAdaptation (st : MPCv10) (now currentPower currentHR : ℚ) :
    MPCv10 :=
  if currentPower < 10 then st
  else
    let head := st.history.modelOutput.headD 0
    let delayedModel := if head = 0 then currentHR else head
    let error := currentHR - delayedModel
    let effectiveErr := clampQ (-5) 5 error
    let elapsedMins := (now - st.history.startTime) / 60000
    let learnBoost : ℚ := if elapsedMins < 5 then 5.0 else if elapsedMins < 10 then 2.0 else 1.0
    let alphaGain := 0.00005 * learnBoost
    let theta0 := st.rls.theta + alphaGain * effectiveErr * (currentPower / 200)
    let theta := clampQ 0.25 0.8 theta0
    let n := st.history.hr.length
    let rls :=
      if 5 ≤ n then
        let recent := st.history.hr.drop (st.history.hr.length - 5)
        let avgOld := (recent.getD 0 0 + recent.getD 1 0) / 2
        let avgNew := (recent.getD 3 0 + recent.getD 4 0) / 2
        let dydt := avgNew - avgOld
        let alphaTau := 0.0005 * learnBoost
        let tauRise :=
          if 0.5 < dydt then
            st.rls.tauRise * (if 0 < error then 1 - alphaTau else 1 + alphaTau)
          else st.rls.tauRise
        let tauFall :=
          if ¬(0.5 < dydt) ∧ dydt < -0.5 then
            st.rls.tauFall * (if 0 < error then 1 + alphaTau else 1 - alphaTau)
          else st.rls.tauFall
        { theta := theta
          tauRise := clampQ 15 60 tauRise
          tauFall := clampQ 25 120 tauFall }
      else
        { st.rls with theta := theta }
    { st with
      rls := rls
      demandObserver := st.demandObserver.updateParams rls.theta rls.tauRise rls.tauFall }

/-- State threaded through the MPC optimizer loop (`update` step 10,
lines 716-754): candidate power, gradient-descent velocity, and the noise
process with its injected increments. -/
structure OptimState where
  power : ℚ
  velocity : ℚ
  noise : NoiseState
  dWs : List ℚ
deriving Repr, DecidableEq

/-- The Monte-Carlo sampling loop of one optimizer iteration
(lines 723-731): for each of the 8 samples push one noisy prediction at
`power + 1` and one at `power - 1`, consuming noise in that order. -/
def MPCv10.mcSamples (st : MPCv10) (power horizon : ℚ) :
    ℕ → NoiseState × List ℚ → (List ℚ × List ℚ) × (NoiseState × List ℚ)
  | 0, ns => (([], []), ns)
  | n + 1, ns =>
    let (pPlus, ns1) := MPCv10.predictN st ns.1 ns.2 (power + 1.0) horizon true
    let (pMinus, ns2) := MPCv10.predictN st ns1.1 ns1.2 (power - 1.0) horizon true
    let ((lp, lm), ns3) := MPCv10.mcSamples st power horizon n ns2
    ((pPlus.2 :: lp, pMinus.2 :: lm), ns3)

/-- One iteration of the optimizer loop (lines 720-754): central-difference
gradient of the multi-objective cost over 8 Monte-Carlo samples, momentum
velocity update clamped to `±maxVel`, power step, anti-windup zeroing of the
velocity when a bound is reached, and clamping of the power to the output
bounds. -/
def MPCv10.optimIter (st : MPCv10) (cfg : SupervisorConfig)
    (targetHR currentPower lr maxVel : ℚ) (ls : OptimState) : OptimState :=
  let mres : (List ℚ × List ℚ) × (NoiseState × List ℚ) :=
    MPCv10.mcSamples st ls.power cfg.horizon 8 (ls.noise, ls.dWs)
  let predictionsPlus : List ℚ := mres.1.1
  let predictionsMinus : List ℚ := mres.1.2
  let costPlus := MultiObjectiveBlender.calculateCost predictionsPlus
    targetHR (ls.power + 1.0) currentPower cfg
  let costMinus := MultiObjectiveBlender.calculateCost predictionsMinus
    targetHR (ls.power - 1.0) currentPower cfg
  let grad := (costPlus - costMinus) / (2 * 1.0)
  let velocity := 0.4 * ls.velocity - lr * grad
  let velocity := clampQ (-maxVel) maxVel velocity
  let power := ls.power + velocity
  let velocity := if st.outputMax ≤ power ∨ power ≤ st.outputMin then 0 else velocity
  let power := clampQ st.outputMin st.outputMax power
  { power := power, velocity := velocity, noise := mres.2.1, dWs := mres.2.2 }

/-- The 8-iteration optimizer loop (`for (let i = 0; i < 8; i++)`),
written with the last iteration outermost. -/
def MPCv10.optimLoop (st : MPCv10) (cfg : SupervisorConfig)
    (targetHR currentPower lr maxVel : ℚ) : ℕ → OptimState → OptimState
  | 0, ls => ls
  | n + 1, ls =>
    MPCv10.optimIter st cfg targetHR currentPower lr maxVel
      (MPCv10.optimLoop st cfg targetHR currentPower lr maxVel n ls)

/-- Everything `update` computes before the optimizer loop on an initialized
controller: the partially-updated controller after steps 1-9 together with
the values the remaining steps read. -/
structure PreCtx where
  st : MPCv10
  filteredHR : ℚ
  mode : Mode
  cfg : SupervisorConfig
  error : ℚ
  lr : ℚ
  maxVel : ℚ
deriving Repr, DecidableEq

/-- Steps 1-9 of `update` (lines 641-714) on an initialized controller:
filter, observe, detect mode, HR variance, auto-tune, drift, performance
stats, Smith predictor and history pushes, RLS adaptation, and the
error-magnitude boost of `lr`/`maxVel`. -/
def MPCv10.preOptim (sqrtQ : ℚ → ℚ) (st : MPCv10)
    (now targetHR rawHR currentPower : ℚ) : PreCtx :=
  let kalman' := st.kalman.update sqrtQ rawHR
  let filteredHR := kalman'.x
  let st : MPCv10 := { st with kalman := kalman' }
  let obr : DemandObserver × ObserverState := st.demandObserver.update filteredHR currentPower 2.0
  let observedState : ObserverState := obr.2
  let st : MPCv10 := { st with demandObserver := obr.1 }
  let mrr : ModeRecognition × Mode := st.modeRecognizer.detect st.history.hr st.history.power
  let mode : Mode := mrr.2
  let st : MPCv10 := { st with modeRecognizer := mrr.1 }
  let hrVariance : ℚ :=
    if 5 ≤ st.history.hr.length then
      let recentHR := st.history.hr.drop (st.history.hr.length - 5)
      let mean := recentHR.sum / 5
      (recentHR.map (fun v => (v - mean) ^ 2)).sum / 5
    else 0
  let error := targetHR - filteredHR
  let supr : BioSupervisor × SupervisorConfig := st.supervisor.autoTune now mode error hrVariance targetHR st.params.hrMax
  let cfg : SupervisorConfig := supr.2
  let st : MPCv10 := { st with supervisor := supr.1 }
  let supdr : BioSupervisor × DriftInfo := st.supervisor.detectDrift now filteredHR observedState.hr currentPower
  let st : MPCv10 := { st with supervisor := supdr.1 }
  let st : MPCv10 := { st with supervisor := st.supervisor.updatePerformance error filteredHR targetHR }
  let delaySecs := (st.params.delay : ℚ) * 2.0
  -- `this.predict(currentPower, delaySecs, false)` adds no noise
  let pDet := st.demandObserver.predict currentPower delaySecs true
  let modelOutput1 := st.history.modelOutput ++ [pDet.2]
  let hr1 := st.history.hr ++ [filteredHR]
  let power1 := st.history.power ++ [currentPower]
  let st : MPCv10 := { st with history :=
    { st.history with
      modelOutput := if st.params.delay < modelOutput1.length then modelOutput1.tail else modelOutput1
      hr := if 20 < hr1.length then hr1.tail else hr1
      power := if 10 < power1.length then power1.tail else power1 } }
  let st : MPCv10 := if |error| < 25 then st.updateAdaptation now currentPower filteredHR else st
  let errMag := |error|
  let lr := if 15 < errMag then cfg.lr * 1.3 else cfg.lr
  let maxVel := if 15 < errMag then cfg.maxVel * 1.5 else cfg.maxVel
  { st := st, filteredHR := filteredHR, mode := mode, cfg := cfg
    error := error, lr := lr, maxVel := maxVel }

/-- `update(targetHR, rawHR, currentPower)` (lines 640-783).  Returns the
updated controller, the remaining noise increments, and the JS return value
(the emitted power). -/
def MPCv10.update (sqrtQ : ℚ → ℚ) (st : MPCv10) (now : ℚ) (dWs : List ℚ)
    (targetHR rawHR currentPower : ℚ) : (MPCv10 × List ℚ) × ℚ :=
  if st.ctrl.inited = false then
    let kalman' := st.kalman.update sqrtQ rawHR
    let filteredHR := kalman'.x
    let st' := { st with
      kalman := kalman'.reset filteredHR
      ctrl := { currentDemand := filteredHR, lastPower := currentPower
                momentum := st.ctrl.momentum, inited := true }
      history := { st.history with startTime := now }
      demandObserver := { st.demandObserver with state :=
        { st.demandObserver.state with hr := filteredHR, demand := filteredHR } } }
    ((st', dWs), currentPower)
  else
    let ctx := MPCv10.preOptim sqrtQ st now targetHR rawHR currentPower
    let st9 := ctx.st
    let ls0 : OptimState := { power := st.ctrl.lastPower, velocity := st.ctrl.momentum
                              noise := st9.noise, dWs := dWs }
    let ls := MPCv10.optimLoop st9 ctx.cfg targetHR currentPower ctx.lr ctx.maxVel 8 ls0
    let st10 := { st9 with ctrl := { st9.ctrl with momentum := ls.velocity }
                           noise := ls.noise }
    let atLimit := decide (st.outputMax - 5 ≤ ls.power ∨ ls.power ≤ st.outputMin + 5)
    let intr : SmartIntegral × ℚ := st10.integral.update ctx.error ctx.mode atLimit
    let integralAdjust := if ctx.cfg.enableIntegral then intr.2 else 0
    let st11 := { st10 with integral := intr.1 }
    let finalPower := MultiObjectiveBlender.blend ls.power integralAdjust
      ctx.cfg.weights ctx.mode st.ctrl.lastPower
    let clampedPower := clampQ st.outputMin st.outputMax finalPower
    let target := clampedPower * st11.rls.theta + st11.params.hrMin
    let currentDemand := st11.ctrl.currentDemand +
      (target - st11.ctrl.currentDemand) / st11.params.tauDemand * 2.0
    let stF := { st11 with ctrl :=
      { st11.ctrl with currentDemand := currentDemand, lastPower := clampedPower } }
    ((stF, ls.dWs), clampedPower)

/-- Feed a list of `(now, targetHR, rawHR, currentPower)` ticks through the
controller, collecting the emitted powers. -/
def MPCv10.runTicks (sqrtQ : ℚ → ℚ) (st : MPCv10) (dWs : List ℚ) :
    List (ℚ × ℚ × ℚ × ℚ) → (MPCv10 × List ℚ) × List ℚ
  | [] => ((st, dWs), [])
  | (now, targetHR, rawHR, currentPower) :: rest =>
    let ((st', dWs'), out) := MPCv10.update sqrtQ st now dWs targetHR rawHR currentPower
    let ((stF, dWsF), outs) := MPCv10.runTicks sqrtQ st' dWs' rest
    ((stF, dWsF), out :: outs)

-- ============================================
-- CLAIMS
-- ============================================

/-- C2: the V9 cost contains a hard overshoot branch on the 99th percentile:
the hard term is positive (value `120·(p99−target)²`) whenever
`p99 > target + 2.0`, it is zero whenever `p99 ≤ target + 1.8`, and
`MPCv9.calculateCost` decomposes as the sum of the dead-banded tracking cost,
soft overshoot, the hard overshoot term, soft undershoot and the momentum
penalty. -/
theorem C2_p99_hard_overshoot (preds : List ℚ) (t tp cp : ℚ) :
    (t + 2 < (sortQ preds).getD (preds.length - 1) 0 →
      MPCv9.overshootHard ((sortQ preds).getD (preds.length - 1) 0) t =
        ((sortQ preds).getD (preds.length - 1) 0 - t) ^ 2 * 120 ∧
      0 < MPCv9.overshootHard ((sortQ preds).getD (preds.length - 1) 0) t) ∧
    ((sortQ preds).getD (preds.length - 1) 0 ≤ t + 1.8 →
      MPCv9.overshootHard ((sortQ preds).getD (preds.length - 1) 0) t = 0) ∧
    MPCv9.calculateCost preds t tp cp =
      (let meanHR := preds.sum / preds.length
       let trackingError :=
         if t + 0.3 < meanHR then meanHR - t - 0.3
         else if meanHR < t - 0.8 then t - 0.8 - meanHR else 0
       let p05 := (sortQ preds).getD 0 0
       let p95 := (sortQ preds).getD (preds.length * 95 / 100) 0
       trackingError ^ 2 * 22.0 +
         (if t + 0.7 < p95 then (p95 - t) ^ 2 * 30 else 0) +
         MPCv9.overshootHard ((sortQ preds).getD (preds.length - 1) 0) t +
         (if p05 < t - 1.5 then (t - p05) ^ 2 * 12 else 0) +
         (tp - cp) ^ 2 * 0.35) := by
  refine ⟨fun h => ?_, fun h => ?_, rfl⟩
  · have h18 : t + 1.8 < (sortQ preds).getD (preds.length - 1) 0 := by
      have : (1.8 : ℚ) < 2 := by norm_num
      linarith
    have hpos : 0 < (sortQ preds).getD (preds.length - 1) 0 - t := by linarith
    constructor
    · unfold MPCv9.overshootHard
      rw [if_pos h18]
    · unfold MPCv9.overshootHard
      rw [if_pos h18]
      have := pow_pos hpos 2
      linarith
  · unfold MPCv9.overshootHard
    rw [if_neg (not_lt.mpr h)]

unseal Rat.add Rat.mul Rat.inv Rat.sub Rat.ofScientific in
/-- Witness for C2 at the concrete prediction sets `[103, 100, 101]`
(`p99 = 103 > 100 + 2`, hard term positive) and `[99, 98, 97]`
(`p99 = 99 ≤ 100 + 1.8`, hard term zero). -/
theorem C2_p99_hard_overshoot_witness :
    0 < MPCv9.overshootHard
        ((sortQ [103, 100, 101]).getD (([103, 100, 101] : List ℚ).length - 1) 0) 100 ∧
    MPCv9.overshootHard
        ((sortQ [99, 98, 97]).getD (([99, 98, 97] : List ℚ).length - 1) 0) 100 = 0 :=
  ⟨((C2_p99_hard_overshoot [103, 100, 101] 100 0 0).1 (by decide)).2,
   (C2_p99_hard_overshoot [99, 98, 97] 100 0 0).2.1 (by decide)⟩

/-- A detection differing from the current mode with the incremented counter
still below 3 leaves the mode and bumps the counter. -/
theorem ModeRecognition.detect_ne_small (m : ModeRecognition) (h p : List ℚ)
    (hl : 5 ≤ h.length)
    (hd : ModeRecognition.classify m.currentMode h p ≠ m.currentMode)
    (hcnt : m.hysteresisCounter + 1 < 3) :
    (m.detect h p).1 =
      { currentMode := m.currentMode, hysteresisCounter := m.hysteresisCounter + 1 } := by
  unfold ModeRecognition.detect ModeRecognition.hysteresis
  rw [if_neg (not_lt.mpr hl)]
  simp only [if_pos hd, if_neg (not_le.mpr hcnt)]

/-- A detection differing from the current mode with the incremented counter
reaching 3 commits the detected mode and clears the counter. -/
theorem ModeRecognition.detect_ne_commit (m : ModeRecognition) (h p : List ℚ)
    (hl : 5 ≤ h.length)
    (hd : ModeRecognition.classify m.currentMode h p ≠ m.currentMode)
    (hcnt : 3 ≤ m.hysteresisCounter + 1) :
    (m.detect h p).1 =
      { currentMode := ModeRecognition.classify m.currentMode h p
        hysteresisCounter := 0 } := by
  unfold ModeRecognition.detect ModeRecognition.hysteresis
  rw [if_neg (not_lt.mpr hl)]
  simp only [if_pos hd, if_pos hcnt]

/-- A detection matching the current mode resets the counter and keeps the
mode. -/
theorem ModeRecognition.detect_eq_reset (m : ModeRecognition) (h p : List ℚ)
    (hl : 5 ≤ h.length)
    (hd : ModeRecognition.classify m.currentMode h p = m.currentMode) :
    (m.detect h p).1 = { m with hysteresisCounter := 0 } := by
  unfold ModeRecognition.detect ModeRecognition.hysteresis
  rw [if_neg (not_lt.mpr hl)]
  simp only [ne_eq, hd, not_true_eq_false, if_neg, if_false, ite_false]

unseal Rat.add Rat.mul Rat.inv Rat.sub Rat.ofScientific in
/-- C3 counterexample: from the initial STEADY state, the three consecutive
detections RAMP, RECOVERY, RAMP are *not* identical, yet the third one
commits RAMP — refuting "the committed mode changes only after 3 consecutive
identical detections". -/
theorem C3_commit_without_identical_detections :
    ModeRecognition.classify Mode.STEADY [0, 0, 0, 0, 13] [0, 0, 10] = Mode.RAMP ∧
    ModeRecognition.classify Mode.STEADY [0, 0, 0, 0, -11] [0, 0, 0] = Mode.RECOVERY ∧
    Mode.RAMP ≠ Mode.RECOVERY ∧
    ModeRecognition.init.currentMode = Mode.STEADY ∧
    ModeRecognition.init.hysteresisCounter = 0 ∧
    ((((ModeRecognition.init.detect [0, 0, 0, 0, 13] [0, 0, 10]).1.detect
        [0, 0, 0, 0, -11] [0, 0, 0]).1.detect [0, 0, 0, 0, 13] [0, 0, 10]).1.currentMode
      = Mode.RAMP) := by
  decide

/-- C3 (amended): the mode commits after 3 consecutive detections that each
differ from the current mode — they need not be identical to one another,
and the third detection becomes the new mode; 2 such detections never change
the mode; a detection matching the current mode resets the counter to 0. -/
theorem C3_hysteresis_three_differing :
    (∀ (m : ModeRecognition) (h1 p1 h2 p2 h3 p3 : List ℚ),
      m.hysteresisCounter = 0 →
      5 ≤ h1.length → 5 ≤ h2.length → 5 ≤ h3.length →
      ModeRecognition.classify m.currentMode h1 p1 ≠ m.currentMode →
      ModeRecognition.classify m.currentMode h2 p2 ≠ m.currentMode →
      ModeRecognition.classify m.currentMode h3 p3 ≠ m.currentMode →
      (m.detect h1 p1).1.currentMode = m.currentMode ∧
      ((m.detect h1 p1).1.detect h2 p2).1.currentMode = m.currentMode ∧
      (((m.detect h1 p1).1.detect h2 p2).1.detect h3 p3).1.currentMode =
        ModeRecognition.classify m.currentMode h3 p3 ∧
      (((m.detect h1 p1).1.detect h2 p2).1.detect h3 p3).1.hysteresisCounter = 0) ∧
    (∀ (m : ModeRecognition) (h p : List ℚ),
      5 ≤ h.length →
      ModeRecognition.classify m.currentMode h p = m.currentMode →
      (m.detect h p).1.currentMode = m.currentMode ∧
      (m.detect h p).1.hysteresisCounter = 0) := by
  constructor
  · intro m h1 p1 h2 p2 h3 p3 hc0 l1 l2 l3 d1 d2 d3
    have e1 : (m.detect h1 p1).1 =
        { currentMode := m.currentMode, hysteresisCounter := m.hysteresisCounter + 1 } :=
      ModeRecognition.detect_ne_small m h1 p1 l1 d1 (by omega)
    have e2 : ((m.detect h1 p1).1.detect h2 p2).1 =
        { currentMode := m.currentMode, hysteresisCounter := m.hysteresisCounter + 1 + 1 } := by
      rw [e1]
      have := ModeRecognition.detect_ne_small
        { currentMode := m.currentMode, hysteresisCounter := m.hysteresisCounter + 1 }
        h2 p2 l2 (by simpa using d2) (by simp [hc0])
      simpa using this
    have e3 : (((m.detect h1 p1).1.detect h2 p2).1.detect h3 p3).1 =
        { currentMode := ModeRecognition.classify m.currentMode h3 p3
          hysteresisCounter := 0 } := by
      rw [e2]
      have := ModeRecognition.detect_ne_commit
        { currentMode := m.currentMode, hysteresisCounter := m.hysteresisCounter + 1 + 1 }
        h3 p3 l3 (by simpa using d3) (by simp)
      simpa using this
    refine ⟨by rw [e1], by rw [e2], by rw [e3], by rw [e3]⟩
  · intro m h p hl hd
    have := ModeRecognition.detect_eq_reset m h p hl hd
    rw [this]
    exact ⟨rfl, rfl⟩

unseal Rat.add Rat.mul Rat.inv Rat.sub Rat.ofScientific in
/-- Witness for C3 (amended) at three identical RAMP detections from the
initial state, and a matching STEADY detection. -/
theorem C3_hysteresis_three_differing_witness :
    ((ModeRecognition.init.detect [0, 0, 0, 0, 13] [0, 0, 10]).1.currentMode =
        ModeRecognition.init.currentMode ∧
      ((ModeRecognition.init.detect [0, 0, 0, 0, 13] [0, 0, 10]).1.detect
          [0, 0, 0, 0, 13] [0, 0, 10]).1.currentMode = ModeRecognition.init.currentMode ∧
      (((ModeRecognition.init.detect [0, 0, 0, 0, 13] [0, 0, 10]).1.detect
          [0, 0, 0, 0, 13] [0, 0, 10]).1.detect [0, 0, 0, 0, 13] [0, 0, 10]).1.currentMode =
        ModeRecognition.classify ModeRecognition.init.currentMode [0, 0, 0, 0, 13] [0, 0, 10] ∧
      (((ModeRecognition.init.detect [0, 0, 0, 0, 13] [0, 0, 10]).1.detect
          [0, 0, 0, 0, 13] [0, 0, 10]).1.detect [0, 0, 0, 0, 13] [0, 0, 10]).1.hysteresisCounter = 0) ∧
    ((ModeRecognition.init.detect [0, 0, 0, 0, 0] [0, 0, 10]).1.currentMode =
        ModeRecognition.init.currentMode ∧
      (ModeRecognition.init.detect [0, 0, 0, 0, 0] [0, 0, 10]).1.hysteresisCounter = 0) :=
  ⟨C3_hysteresis_three_differing.1 ModeRecognition.init
      [0, 0, 0, 0, 13] [0, 0, 10] [0, 0, 0, 0, 13] [0, 0, 10] [0, 0, 0, 0, 13] [0, 0, 10]
      (by decide) (by decide) (by decide) (by decide) (by decide) (by decide) (by decide),
   C3_hysteresis_three_differing.2 ModeRecognition.init [0, 0, 0, 0, 0] [0, 0, 10]
      (by decide) (by decide)⟩

-- ============================================
-- C6: SmartIntegral.update vs its claimed description
-- ============================================

/-- Modelled from the claim's wording for C6 (spec §4.8): the sign-flip
branch is read as *exclusive* — "on sign flip versus the previous error
decay ×0.3, otherwise accumulate error·weight·dt" — so on a sign flip the
accumulator is only decayed and not also accumulated.  This definition
exists to be compared against the source's `SmartIntegral.update`. -/
def SmartIntegral.claimSpecUpdate (s : SmartIntegral) (error : ℚ) (mode : Mode)
    (atPowerLimit : Bool) : SmartIntegral × ℚ :=
  if mode ≠ Mode.STEADY ∨ atPowerLimit = true then
    ({ s with accumulated := s.accumulated * 0.5, lastError := error }, 0)
  else if 2.5 < |error| then
    let s' : SmartIntegral :=
      { s with accumulated := s.accumulated * 0.8, lastError := error }
    (s', s'.Ki * s'.accumulated)
  else if error * s.lastError < 0 then
    let s' : SmartIntegral :=
      { s with accumulated := s.accumulated * 0.3, lastError := error }
    (s', s'.Ki * s'.accumulated)
  else
    let weight : ℚ := if 0 < error then 1.5 else 1.0
    let acc1 := s.accumulated + error * weight * 2.0
    let acc2 := clampQ (-(s.maxAccum / s.Ki)) (s.maxAccum / s.Ki) acc1
    let s' : SmartIntegral := { s with accumulated := acc2, lastError := error }
    (s', s'.Ki * s'.accumulated)

unseal Rat.add Rat.mul Rat.inv Rat.sub Rat.ofScientific in
/-- C6 counterexample: at `accumulated = 100, lastError = -1`, a STEADY,
unsaturated call with `error = 1` (a sign flip, `|error| ≤ 2.5`) leaves the
source's accumulator at `0.3·100 + 1·1.5·2 = 33` (decay *and then*
accumulate), while the claim's exclusive reading gives `30`: the code does
not behave "exactly as specified". -/
theorem C6_sign_flip_also_accumulates :
    (SmartIntegral.update
        { accumulated := 100, Ki := 0.1, maxAccum := 15, lastError := -1 }
        1 Mode.STEADY false).1.accumulated = 33 ∧
    (SmartIntegral.claimSpecUpdate
        { accumulated := 100, Ki := 0.1, maxAccum := 15, lastError := -1 }
        1 Mode.STEADY false).1.accumulated = 30 ∧
    (33 : ℚ) ≠ 30 ∧
    SmartIntegral.update
        { accumulated := 100, Ki := 0.1, maxAccum := 15, lastError := -1 }
        1 Mode.STEADY false ≠
      SmartIntegral.claimSpecUpdate
        { accumulated := 100, Ki := 0.1, maxAccum := 15, lastError := -1 }
        1 Mode.STEADY false := by
  refine ⟨by decide, by decide, by decide, by decide⟩

/-- Modelled from the claim's wording for C6, amended only on the sign-flip
branch: on a sign flip the accumulator is decayed ×0.3 *and then* the
current error is accumulated (with the same weighting and clamping as the
no-flip case). -/
def SmartIntegral.amendedSpecUpdate (s : SmartIntegral) (error : ℚ) (mode : Mode)
    (atPowerLimit : Bool) : SmartIntegral × ℚ :=
  if mode ≠ Mode.STEADY ∨ atPowerLimit = true then
    ({ s with accumulated := s.accumulated * 0.5, lastError := error }, 0)
  else if 2.5 < |error| then
    let s' : SmartIntegral :=
      { s with accumulated := s.accumulated * 0.8, lastError := error }
    (s', s'.Ki * s'.accumulated)
  else
    let decayed := if error * s.lastError < 0 then s.accumulated * 0.3 else s.accumulated
    let weight : ℚ := if 0 < error then 1.5 else 1.0
    let acc2 := clampQ (-(s.maxAccum / s.Ki)) (s.maxAccum / s.Ki)
      (decayed + error * weight * 2.0)
    let s' : SmartIntegral := { s with accumulated := acc2, lastError := error }
    (s', s'.Ki * s'.accumulated)

/-- C6 (amended): `SmartIntegral.update` behaves exactly as the amended
description for every input: decay ×0.5 returning 0 outside STEADY or at a
power limit; decay ×0.8 returning `Ki·accumulated` when `|error| > 2.5`;
otherwise decay ×0.3 on a sign flip *and then* accumulate `error·weight·2`
(weight 1.5 for positive error, else 1.0), clamp to `±maxAccum/Ki`, and
return `Ki·accumulated`. -/
theorem C6_integral_update_amended (s : SmartIntegral) (error : ℚ) (mode : Mode)
    (atPowerLimit : Bool) :
    SmartIntegral.update s error mode atPowerLimit =
      SmartIntegral.amendedSpecUpdate s error mode atPowerLimit := by
  unfold SmartIntegral.update SmartIntegral.amendedSpecUpdate
  rfl

-- ============================================
-- C8: DemandObserver.update clamps
-- ============================================

unseal Rat.add Rat.mul Rat.inv Rat.sub Rat.ofScientific in
/-- C8 counterexample: with a configured `hrMax = 100`, one observer update
at `measuredHR = 200, power = 400` drives `demand` to `74942/625 ≈ 119.9`,
which exceeds the configured `hrMax` (the source clamps to the fixed
constant 195, not to `hrMax`). -/
theorem C8_demand_exceeds_configured_hrMax :
    (MPCv10.init 50 400 100 0).params.hrMax = 100 ∧
    ((MPCv10.init 50 400 100 0).demandObserver.update 200 400 2.0).1.state.demand =
      74942 / 625 ∧
    ¬(((MPCv10.init 50 400 100 0).demandObserver.update 200 400 2.0).1.state.demand ≤
        (MPCv10.init 50 400 100 0).params.hrMax) := by
  refine ⟨by decide, by decide, by decide⟩

/-- C8 (amended): after every `DemandObserver.update` the state satisfies
`demand ∈ [65, 195]` (65 is the controller's fixed `hrMin`; 195 is a
hard-coded cap independent of the configured `hrMax`), `hr ∈ [60, 200]` and
`dhdt ∈ [−5, 5]`. -/
theorem C8_observer_state_clamped (o : DemandObserver) (measuredHR power dt : ℚ) :
    (65 ≤ (o.update measuredHR power dt).1.state.demand ∧
      (o.update measuredHR power dt).1.state.demand ≤ 195) ∧
    (60 ≤ (o.update measuredHR power dt).1.state.hr ∧
      (o.update measuredHR power dt).1.state.hr ≤ 200) ∧
    (-5 ≤ (o.update measuredHR power dt).1.state.dhdt ∧
      (o.update measuredHR power dt).1.state.dhdt ≤ 5) := by
  unfold DemandObserver.update
  refine ⟨⟨le_clampQ _ _ _, clampQ_le _ _ _ (by norm_num)⟩,
    ⟨le_clampQ _ _ _, clampQ_le _ _ _ (by norm_num)⟩,
    ⟨le_clampQ _ _ _, clampQ_le _ _ _ (by norm_num)⟩⟩

-- ============================================
-- C10: AdaptiveKalmanFilter never fully adopts a sample
-- ============================================

/-- C10: for every Kalman update with positive covariance and positive noise
parameters, the posterior covariance stays positive, and when the
measurement differs from the current estimate the filtered value lies
strictly between the previous estimate and the measurement (the gain
`(P+Q)/(P+Q+R)` is strictly inside `(0,1)`); consequently the first update
of a fresh filter returns the raw sample only when that sample equals the
initial estimate 70.  `sqrtQ` models `Math.sqrt` and is only assumed
nonnegative on nonnegative input. -/
theorem C10_kalman_strictly_between
    (sqrtQ : ℚ → ℚ) (hs : ∀ v, 0 ≤ v → 0 ≤ sqrtQ v)
    (f : AdaptiveKalmanFilter) (m : ℚ)
    (hP : 0 < f.P) (hQ : 0 ≤ f.Q) (hR : 0 < f.R) (hbR : 0 < f.baseR) :
    (0 < (f.update sqrtQ m).P) ∧
    (f.x < m → f.x < (f.update sqrtQ m).x ∧ (f.update sqrtQ m).x < m) ∧
    (m < f.x → m < (f.update sqrtQ m).x ∧ (f.update sqrtQ m).x < f.x) ∧
    ((AdaptiveKalmanFilter.init.update sqrtQ m).x = m ↔ m = 70) := by
  have hseed : ((AdaptiveKalmanFilter.init.update sqrtQ m).x = m ↔ m = 70) := by
    unfold AdaptiveKalmanFilter.update AdaptiveKalmanFilter.init
    norm_num
    constructor
    · intro h
      linarith
    · intro h
      rw [h]
      norm_num
  unfold AdaptiveKalmanFilter.update
  simp only
  set hist := if 5 < (f.history ++ [m]).length then (f.history ++ [m]).tail
    else f.history ++ [m] with hhist
  set R := if 5 ≤ hist.length then
      f.baseR * (1 + min (sqrtQ ((hist.map (fun v => (v - hist.sum / 5) ^ 2)).sum / 5) / 2.0) 2.0)
    else f.R with hRdef
  have hRpos : 0 < R := by
    rw [hRdef]
    split_ifs
    · have hv : 0 ≤ (hist.map ( fun v => (v - hist.sum / 5) ^ 2)).sum := by
        apply List.sum_nonneg
        intro a ha
        simp only [List.mem_map] at ha
        obtain ⟨b, _, hb⟩ := ha
        rw [← hb]
        positivity
      have hsq : 0 ≤ sqrtQ ((hist.map (fun v => (v - hist.sum / 5) ^ 2)).sum / 5) :=
        hs _ (by positivity)
      have hmin : 0 ≤ min (sqrtQ ((hist.map (fun v => (v - hist.sum / 5) ^ 2)).sum / 5) / 2.0) 2.0 :=
        le_min (by linarith) (by norm_num)
      have : (0:ℚ) < 1 + min (sqrtQ ((hist.map (fun v => (v - hist.sum / 5) ^ 2)).sum / 5) / 2.0) 2.0 := by
        linarith
      exact mul_pos hbR this
    · exact hR
  have hPPred : 0 < f.P + f.Q := by linarith
  have hden : 0 < f.P + f.Q + R := by linarith
  have hK0 : 0 < (f.P + f.Q) / (f.P + f.Q + R) := div_pos hPPred hden
  have hK1 : (f.P + f.Q) / (f.P + f.Q + R) < 1 := (div_lt_one hden).mpr (by linarith)
  refine ⟨?_, fun hxm => ⟨?_, ?_⟩, fun hmx => ⟨?_, ?_⟩, hseed⟩
  · exact mul_pos (by linarith) hPPred
  · nlinarith [mul_pos hK0 (show (0:ℚ) < m - f.x by linarith)]
  · nlinarith [mul_pos (show (0:ℚ) < 1 - (f.P + f.Q) / (f.P + f.Q + R) by linarith)
      (show (0:ℚ) < m - f.x by linarith)]
  · nlinarith [mul_pos hK0 (show (0:ℚ) < f.x - m by linarith)]
  · nlinarith [mul_pos (show (0:ℚ) < 1 - (f.P + f.Q) / (f.P + f.Q + R) by linarith)
      (show (0:ℚ) < f.x - m by linarith)]

unseal Rat.add Rat.mul Rat.inv Rat.sub Rat.ofScientific in
/-- Witness for C10 at the fresh filter and measurement 80 (with the zero
function standing in for `Math.sqrt`): the covariance stays positive and the
filtered value lies strictly between 70 and 80. -/
theorem C10_kalman_strictly_between_witness :
    0 < (AdaptiveKalmanFilter.init.update (fun _ => 0) 80).P ∧
    AdaptiveKalmanFilter.init.x < (AdaptiveKalmanFilter.init.update (fun _ => 0) 80).x ∧
    (AdaptiveKalmanFilter.init.update (fun _ => 0) 80).x < 80 := by
  have h := C10_kalman_strictly_between (fun _ => 0) (fun _ _ => le_refl 0)
    AdaptiveKalmanFilter.init 80 (by decide) (by decide) (by decide) (by decide)
  exact ⟨h.1, h.2.1 (by decide)⟩

-- ============================================
-- C1: output bounds
-- ============================================

unseal Rat.add Rat.mul Rat.inv Rat.sub Rat.ofScientific in
/-- C1 counterexample: on the very first (initializing) call `update` returns
`currentPower` unchanged and unclamped — with the default bounds
`[50, 400]`, `update(130, 80, 500)` returns `500 > outputMax`. -/
theorem C1_first_call_unclamped :
    (MPCv10.init 50 400 195 0).outputMin = 50 ∧
    (MPCv10.init 50 400 195 0).outputMax = 400 ∧
    (MPCv10.update (fun _ => 0) (MPCv10.init 50 400 195 0) 0 [] 130 80 500).2 = 500 ∧
    ¬((MPCv10.update (fun _ => 0) (MPCv10.init 50 400 195 0) 0 [] 130 80 500).2 ≤
        (MPCv10.init 50 400 195 0).outputMax) := by
  refine ⟨by decide, by decide, by decide, by decide⟩

/-- C1 (amended): on every call with an already-initialized controller whose
bounds satisfy `outputMin ≤ outputMax`, the emitted power lies in
`[outputMin, outputMax]`; the first (initializing) call instead returns
`currentPower` unchanged, which can lie outside the bounds. -/
theorem C1_output_clamped (sqrtQ : ℚ → ℚ) (st : MPCv10) (now : ℚ) (dWs : List ℚ)
    (t r c : ℚ) (hinit : st.ctrl.inited = true) (hb : st.outputMin ≤ st.outputMax) :
    st.outputMin ≤ (MPCv10.update sqrtQ st now dWs t r c).2 ∧
    (MPCv10.update sqrtQ st now dWs t r c).2 ≤ st.outputMax := by
  unfold MPCv10.update
  rw [hinit]
  simp only [Bool.true_eq_false, if_false]
  exact ⟨le_clampQ _ _ _, clampQ_le _ _ _ hb⟩

unseal Rat.add Rat.mul Rat.inv Rat.sub Rat.ofScientific in
/-- Witness for C1 (amended): the controller state reached by one cold-start
call is initialized with bounds `[50, 400]`, so the next emitted power lies
within them. -/
theorem C1_output_clamped_witness :
    ((MPCv10.update (fun _ => 0) (MPCv10.init 50 400 195 0) 0 [] 130 80 100).1.1.outputMin ≤
      (MPCv10.update (fun _ => 0)
        (MPCv10.update (fun _ => 0) (MPCv10.init 50 400 195 0) 0 [] 130 80 100).1.1
        0 [] 130 80 100).2) ∧
    ((MPCv10.update (fun _ => 0)
        (MPCv10.update (fun _ => 0) (MPCv10.init 50 400 195 0) 0 [] 130 80 100).1.1
        0 [] 130 80 100).2 ≤
      (MPCv10.update (fun _ => 0) (MPCv10.init 50 400 195 0) 0 [] 130 80 100).1.1.outputMax) :=
  C1_output_clamped (fun _ => 0)
    (MPCv10.update (fun _ => 0) (MPCv10.init 50 400 195 0) 0 [] 130 80 100).1.1
    0 [] 130 80 100 (by decide) (by decide)

-- ============================================
-- C4: cold start
-- ============================================

unseal Rat.add Rat.mul Rat.inv Rat.sub Rat.ofScientific in
/-- C4 counterexample: the first call `update(130, 80, 100)` does return
`100`, but the internal demand and hr state are seeded to the
Kalman-*filtered* value `700/9 ≈ 77.8`, not to the raw measurement 80. -/
theorem C4_seeds_filtered_not_raw :
    (MPCv10.update (fun _ => 0) (MPCv10.init 50 400 195 0) 0 [] 130 80 100).2 = 100 ∧
    (MPCv10.update (fun _ => 0)
        (MPCv10.init 50 400 195 0) 0 [] 130 80 100).1.1.demandObserver.state.hr = 700 / 9 ∧
    (MPCv10.update (fun _ => 0)
        (MPCv10.init 50 400 195 0) 0 [] 130 80 100).1.1.demandObserver.state.demand = 700 / 9 ∧
    (700 / 9 : ℚ) ≠ 80 := by
  refine ⟨by decide, by decide, by decide, by decide⟩

/-- C4 (amended): on the first call after construction or reset
(`initialized = false`), `update` returns `currentPower` unchanged and seeds
the observer's demand and hr, the controller's `currentDemand`, and the
Kalman estimate to the Kalman-filtered heart rate computed from the raw
measurement (not to the raw measurement itself), and marks the controller
initialized with `lastPower = currentPower`. -/
theorem C4_first_call_seeds_filtered (sqrtQ : ℚ → ℚ) (st : MPCv10) (now : ℚ)
    (dWs : List ℚ) (t r c : ℚ) (hinit : st.ctrl.inited = false) :
    (MPCv10.update sqrtQ st now dWs t r c).2 = c ∧
    (MPCv10.update sqrtQ st now dWs t r c).1.1.demandObserver.state.hr =
      (st.kalman.update sqrtQ r).x ∧
    (MPCv10.update sqrtQ st now dWs t r c).1.1.demandObserver.state.demand =
      (st.kalman.update sqrtQ r).x ∧
    (MPCv10.update sqrtQ st now dWs t r c).1.1.ctrl.currentDemand =
      (st.kalman.update sqrtQ r).x ∧
    (MPCv10.update sqrtQ st now dWs t r c).1.1.ctrl.lastPower = c ∧
    (MPCv10.update sqrtQ st now dWs t r c).1.1.ctrl.inited = true ∧
    (MPCv10.update sqrtQ st now dWs t r c).1.1.kalman.x = (st.kalman.update sqrtQ r).x := by
  unfold MPCv10.update
  rw [hinit]
  simp only [if_pos rfl]
  exact ⟨rfl, rfl, rfl, rfl, rfl, rfl, rfl⟩

unseal Rat.add Rat.mul Rat.inv Rat.sub Rat.ofScientific in
/-- Witness for C4 (amended) at the fresh controller and the concrete
cold-start call `update(130, 80, 100)`. -/
theorem C4_first_call_seeds_filtered_witness :
    (MPCv10.update (fun _ => 0) (MPCv10.init 50 400 195 0) 0 [] 130 80 100).2 = 100 ∧
    (MPCv10.update (fun _ => 0)
        (MPCv10.init 50 400 195 0) 0 [] 130 80 100).1.1.demandObserver.state.hr =
      ((MPCv10.init 50 400 195 0).kalman.update (fun _ => 0) 80).x ∧
    (MPCv10.update (fun _ => 0)
        (MPCv10.init 50 400 195 0) 0 [] 130 80 100).1.1.ctrl.inited = true :=
  have h := C4_first_call_seeds_filtered (fun _ => 0) (MPCv10.init 50 400 195 0)
    0 [] 130 80 100 (by decide)
  ⟨h.1, h.2.1, h.2.2.2.2.2.1⟩

-- ============================================
-- C5: anti-windup
-- ============================================

/-- The optimizer phase of `update` on an initialized controller: the
8-iteration loop run from `lastPower`/`momentum` on the post-step-9 state,
exactly as `update` runs it. -/
def MPCv10.optimResult (sqrtQ : ℚ → ℚ) (st : MPCv10) (now : ℚ) (dWs : List ℚ)
    (targetHR rawHR currentPower : ℚ) : OptimState :=
  let ctx := MPCv10.preOptim sqrtQ st now targetHR rawHR currentPower
  MPCv10.optimLoop ctx.st ctx.cfg targetHR currentPower ctx.lr ctx.maxVel 8
    { power := st.ctrl.lastPower, velocity := st.ctrl.momentum
      noise := ctx.st.noise, dWs := dWs }

/-- `updateAdaptation` only touches `rls` and the observer parameters. -/
theorem MPCv10.updateAdaptation_preserves (st : MPCv10) (now p hr : ℚ) :
    (MPCv10.updateAdaptation st now p hr).outputMin = st.outputMin ∧
    (MPCv10.updateAdaptation st now p hr).outputMax = st.outputMax ∧
    (MPCv10.updateAdaptation st now p hr).integral = st.integral ∧
    (MPCv10.updateAdaptation st now p hr).ctrl = st.ctrl := by
  unfold MPCv10.updateAdaptation
  split_ifs <;> exact ⟨rfl, rfl, rfl, rfl⟩

/-- Steps 1-9 of `update` leave the output bounds, the integral state and
the controller state (`lastPower`, `momentum`, …) untouched. -/
theorem MPCv10.preOptim_preserves (sqrtQ : ℚ → ℚ) (st : MPCv10) (now t r c : ℚ) :
    (MPCv10.preOptim sqrtQ st now t r c).st.outputMin = st.outputMin ∧
    (MPCv10.preOptim sqrtQ st now t r c).st.outputMax = st.outputMax ∧
    (MPCv10.preOptim sqrtQ st now t r c).st.integral = st.integral ∧
    (MPCv10.preOptim sqrtQ st now t r c).st.ctrl = st.ctrl := by
  unfold MPCv10.preOptim
  simp only
  split_ifs <;>
    first
    | exact ⟨rfl, rfl, rfl, rfl⟩
    | · rw [(MPCv10.updateAdaptation_preserves _ _ _ _).1,
            (MPCv10.updateAdaptation_preserves _ _ _ _).2.1,
            (MPCv10.updateAdaptation_preserves _ _ _ _).2.2.1,
            (MPCv10.updateAdaptation_preserves _ _ _ _).2.2.2]
        exact ⟨rfl, rfl, rfl, rfl⟩

/-- A saturated call to the integral (`atPowerLimit = true`) halves the
accumulator regardless of the mode. -/
theorem SmartIntegral.update_atLimit (s : SmartIntegral) (e : ℚ) (m : Mode) :
    (SmartIntegral.update s e m true).1.accumulated = s.accumulated * 0.5 := by
  unfold SmartIntegral.update
  rw [if_pos (Or.inr rfl)]

/-- The anti-windup of an optimizer iteration: if the iteration ends with
its power at or beyond a bound, its velocity was zeroed. -/
theorem MPCv10.optimIter_velocity_zero (stq : MPCv10) (cfg : SupervisorConfig)
    (t c lr mv : ℚ) (ls : OptimState)
    (h : stq.outputMax ≤ (MPCv10.optimIter stq cfg t c lr mv ls).power ∨
         (MPCv10.optimIter stq cfg t c lr mv ls).power ≤ stq.outputMin) :
    (MPCv10.optimIter stq cfg t c lr mv ls).velocity = 0 := by
  unfold MPCv10.optimIter at h ⊢
  simp only at h ⊢
  split_ifs with hc
  · rfl
  · exfalso
    push_neg at hc
    obtain ⟨hc1, hc2⟩ := hc
    rw [show ∀ (a b x : ℚ), x ≤ b → a ≤ x → clampQ a b x = x from
      fun a b x hx1 hx2 => by unfold clampQ; rw [min_eq_right hx1, max_eq_right hx2]] at h
    · exact h.elim (fun hh => absurd hh (not_le.mpr hc1)) (fun hh => absurd hh (not_le.mpr hc2))
    · exact hc1.le
    · exact hc2.le

/-- C5: on any tick of `update` whose optimizer phase ends with the power at
(or beyond) `outputMax` or `outputMin`, the momentum stored in the
controller state at the end of the tick is 0, and the integral accumulator's
absolute value does not grow on that tick (it is halved by the saturated
integral call). -/
theorem C5_antiwindup_momentum_zero (sqrtQ : ℚ → ℚ) (st : MPCv10) (now : ℚ)
    (dWs : List ℚ) (t r c : ℚ)
    (hinit : st.ctrl.inited = true)
    (hhit : st.outputMax ≤ (MPCv10.optimResult sqrtQ st now dWs t r c).power ∨
            (MPCv10.optimResult sqrtQ st now dWs t r c).power ≤ st.outputMin) :
    (MPCv10.update sqrtQ st now dWs t r c).1.1.ctrl.momentum = 0 ∧
    |(MPCv10.update sqrtQ st now dWs t r c).1.1.integral.accumulated| ≤
      |st.integral.accumulated| := by
  obtain ⟨hpmin, hpmax, hpint, hpctrl⟩ := MPCv10.preOptim_preserves sqrtQ st now t r c
  unfold MPCv10.optimResult at hhit
  simp only at hhit
  unfold MPCv10.update
  rw [hinit]
  simp only [Bool.true_eq_false, if_false]
  set ctxv := MPCv10.preOptim sqrtQ st now t r c with hctx
  set lsv := MPCv10.optimLoop ctxv.st ctxv.cfg t c ctxv.lr ctxv.maxVel 8
    { power := st.ctrl.lastPower, velocity := st.ctrl.momentum
      noise := ctxv.st.noise, dWs := dWs } with hls
  have hv : lsv.velocity = 0 := by
    rw [hls, show (8:ℕ) = 7 + 1 from rfl]
    show (MPCv10.optimIter ctxv.st ctxv.cfg t c ctxv.lr ctxv.maxVel
      (MPCv10.optimLoop ctxv.st ctxv.cfg t c ctxv.lr ctxv.maxVel 7
        { power := st.ctrl.lastPower, velocity := st.ctrl.momentum
          noise := ctxv.st.noise, dWs := dWs })).velocity = 0
    apply MPCv10.optimIter_velocity_zero
    rw [hpmax, hpmin]
    exact hhit
  have hat : decide (st.outputMax - 5 ≤ lsv.power ∨ lsv.power ≤ st.outputMin + 5) = true := by
    apply decide_eq_true
    rcases hhit with hh | hh
    · exact Or.inl (by linarith)
    · exact Or.inr (by linarith)
  refine ⟨hv, ?_⟩
  show |(SmartIntegral.update ctxv.st.integral ctxv.error ctxv.mode
      (decide (st.outputMax - 5 ≤ lsv.power ∨ lsv.power ≤ st.outputMin + 5))).1.accumulated| ≤
    |st.integral.accumulated|
  rw [hat, SmartIntegral.update_atLimit, hpint, abs_mul,
    abs_of_nonneg (show (0:ℚ) ≤ 0.5 by norm_num)]
  nlinarith [abs_nonneg st.integral.accumulated]

set_option maxRecDepth 4000000 in
set_option maxHeartbeats 4000000 in
unseal Rat.add Rat.mul Rat.inv Rat.sub Rat.ofScientific in
/-- Witness for C5: with bounds `[50, 105]`, a large-undershoot target of 150
drives the optimizer to the `outputMax` cap on the second tick; the stored
momentum is 0 and the integral accumulator does not grow. -/
theorem C5_antiwindup_momentum_zero_witness :
    ((MPCv10.update (fun _ => 0)
        (MPCv10.update (fun _ => 0) (MPCv10.init 50 105 195 0) 0 [] 150 80 100).1.1
        0 [] 150 80 100).1.1.ctrl.momentum = 0) ∧
    |(MPCv10.update (fun _ => 0)
        (MPCv10.update (fun _ => 0) (MPCv10.init 50 105 195 0) 0 [] 150 80 100).1.1
        0 [] 150 80 100).1.1.integral.accumulated| ≤
      |(MPCv10.update (fun _ => 0) (MPCv10.init 50 105 195 0) 0 [] 150 80 100).1.1.integral.accumulated| :=
  C5_antiwindup_momentum_zero (fun _ => 0)
    (MPCv10.update (fun _ => 0) (MPCv10.init 50 105 195 0) 0 [] 150 80 100).1.1
    0 [] 150 80 100 (by decide) (Or.inl (by decide))

-- ============================================
-- C7: parameter adaptation clamps and skip conditions
-- ============================================

/-- `updateAdaptation` is a no-op below 10 W. -/
theorem MPCv10.updateAdaptation_low_power (st : MPCv10) (now p hr : ℚ)
    (h : p < 10) : MPCv10.updateAdaptation st now p hr = st := by
  unfold MPCv10.updateAdaptation
  rw [if_pos h]

/-- `updateAdaptation` keeps the learned parameters in their physiological
ranges. -/
theorem MPCv10.updateAdaptation_in_range (st : MPCv10) (now p hr : ℚ)
    (h1 : 0.25 ≤ st.rls.theta) (h2 : st.rls.theta ≤ 0.8)
    (h3 : 15 ≤ st.rls.tauRise) (h4 : st.rls.tauRise ≤ 60)
    (h5 : 25 ≤ st.rls.tauFall) (h6 : st.rls.tauFall ≤ 120) :
    (0.25 ≤ (MPCv10.updateAdaptation st now p hr).rls.theta ∧
      (MPCv10.updateAdaptation st now p hr).rls.theta ≤ 0.8) ∧
    (15 ≤ (MPCv10.updateAdaptation st now p hr).rls.tauRise ∧
      (MPCv10.updateAdaptation st now p hr).rls.tauRise ≤ 60) ∧
    (25 ≤ (MPCv10.updateAdaptation st now p hr).rls.tauFall ∧
      (MPCv10.updateAdaptation st now p hr).rls.tauFall ≤ 120) := by
  by_cases hg : p < 10
  · rw [MPCv10.updateAdaptation_low_power st now p hr hg]
    exact ⟨⟨h1, h2⟩, ⟨h3, h4⟩, ⟨h5, h6⟩⟩
  · unfold MPCv10.updateAdaptation
    rw [if_neg hg]
    simp only
    by_cases hn : 5 ≤ st.history.hr.length
    · rw [if_pos hn]
      exact ⟨⟨le_clampQ _ _ _, clampQ_le _ _ _ (by norm_num)⟩,
        ⟨le_clampQ _ _ _, clampQ_le _ _ _ (by norm_num)⟩,
        ⟨le_clampQ _ _ _, clampQ_le _ _ _ (by norm_num)⟩⟩
    · rw [if_neg hn]
      exact ⟨⟨le_clampQ _ _ _, clampQ_le _ _ _ (by norm_num)⟩, ⟨h3, h4⟩, ⟨h5, h6⟩⟩

/-- With `|targetHR − filteredHR| ≥ 25`, steps 1-9 of `update` leave the
learned parameters untouched. -/
theorem MPCv10.preOptim_skip_adaptation (sqrtQ : ℚ → ℚ) (st : MPCv10)
    (now t r c : ℚ) (h : 25 ≤ |t - (st.kalman.update sqrtQ r).x|) :
    (MPCv10.preOptim sqrtQ st now t r c).st.rls = st.rls ∧
    (MPCv10.preOptim sqrtQ st now t r c).st.demandObserver.params =
      st.demandObserver.params := by
  unfold MPCv10.preOptim
  simp only
  rw [if_neg (not_lt.mpr h)]
  exact ⟨rfl, rfl⟩

/-- `update` leaves the learned parameters untouched when the tracking error
of the tick is at least 25 bpm. -/
theorem MPCv10.update_skip_adaptation (sqrtQ : ℚ → ℚ) (st : MPCv10) (now : ℚ)
    (dWs : List ℚ) (t r c : ℚ)
    (h : 25 ≤ |t - (st.kalman.update sqrtQ r).x|) :
    (MPCv10.update sqrtQ st now dWs t r c).1.1.rls = st.rls ∧
    (MPCv10.update sqrtQ st now dWs t r c).1.1.demandObserver.params =
      st.demandObserver.params := by
  obtain ⟨hq1, hq2⟩ := MPCv10.preOptim_skip_adaptation sqrtQ st now t r c h
  cases hi : st.ctrl.inited with
  | false =>
    unfold MPCv10.update
    rw [hi]
    simp only [if_pos rfl]
    exact ⟨rfl, rfl⟩
  | true =>
    unfold MPCv10.update
    rw [hi]
    simp only [Bool.true_eq_false, if_false]
    constructor
    · show (MPCv10.preOptim sqrtQ st now t r c).st.rls = st.rls
      exact hq1
    · show (MPCv10.preOptim sqrtQ st now t r c).st.demandObserver.params =
        st.demandObserver.params
      exact hq2

/-- C7: (1) an adaptation step at under 10 W is skipped entirely (the whole
controller state is unchanged); (2) after every adaptation step the learned
parameters satisfy `gain ∈ [0.25, 0.8]`, `tauRise ∈ [15, 60]`,
`tauFall ∈ [25, 120]` whenever they did before; (3) a tick with
`|targetHR − filteredHR| ≥ 25` leaves the learned parameters (both the RLS
state and the observer's parameters) unchanged. -/
theorem C7_adaptation_clamped_and_skipped :
    (∀ (st : MPCv10) (now p hr : ℚ), p < 10 →
      MPCv10.updateAdaptation st now p hr = st) ∧
    (∀ (st : MPCv10) (now p hr : ℚ),
      0.25 ≤ st.rls.theta → st.rls.theta ≤ 0.8 →
      15 ≤ st.rls.tauRise → st.rls.tauRise ≤ 60 →
      25 ≤ st.rls.tauFall → st.rls.tauFall ≤ 120 →
      (0.25 ≤ (MPCv10.updateAdaptation st now p hr).rls.theta ∧
        (MPCv10.updateAdaptation st now p hr).rls.theta ≤ 0.8) ∧
      (15 ≤ (MPCv10.updateAdaptation st now p hr).rls.tauRise ∧
        (MPCv10.updateAdaptation st now p hr).rls.tauRise ≤ 60) ∧
      (25 ≤ (MPCv10.updateAdaptation st now p hr).rls.tauFall ∧
        (MPCv10.updateAdaptation st now p hr).rls.tauFall ≤ 120)) ∧
    (∀ (sqrtQ : ℚ → ℚ) (st : MPCv10) (now : ℚ) (dWs : List ℚ) (t r c : ℚ),
      25 ≤ |t - (st.kalman.update sqrtQ r).x| →
      (MPCv10.update sqrtQ st now dWs t r c).1.1.rls = st.rls ∧
      (MPCv10.update sqrtQ st now dWs t r c).1.1.demandObserver.params =
        st.demandObserver.params) :=
  ⟨fun st now p hr h => MPCv10.updateAdaptation_low_power st now p hr h,
   fun st now p hr h1 h2 h3 h4 h5 h6 =>
     MPCv10.updateAdaptation_in_range st now p hr h1 h2 h3 h4 h5 h6,
   fun sqrtQ st now dWs t r c h =>
     MPCv10.update_skip_adaptation sqrtQ st now dWs t r c h⟩

unseal Rat.add Rat.mul Rat.inv Rat.sub Rat.ofScientific in
/-- Witness for C7 at the fresh controller: a 5 W adaptation step is a
no-op, the default parameters stay in range after an adaptation step, and a
cold-start tick with target 200 (error ≈ 122 ≥ 25) leaves the learned
parameters unchanged. -/
theorem C7_adaptation_clamped_and_skipped_witness :
    MPCv10.updateAdaptation (MPCv10.init 50 400 195 0) 0 5 80 =
      MPCv10.init 50 400 195 0 ∧
    (0.25 ≤ (MPCv10.updateAdaptation (MPCv10.init 50 400 195 0) 0 100 80).rls.theta ∧
      (MPCv10.updateAdaptation (MPCv10.init 50 400 195 0) 0 100 80).rls.theta ≤ 0.8) ∧
    (MPCv10.update (fun _ => 0) (MPCv10.init 50 400 195 0) 0 [] 200 80 100).1.1.rls =
      (MPCv10.init 50 400 195 0).rls :=
  ⟨C7_adaptation_clamped_and_skipped.1 (MPCv10.init 50 400 195 0) 0 5 80 (by decide),
   (C7_adaptation_clamped_and_skipped.2.1 (MPCv10.init 50 400 195 0) 0 100 80
      (by decide) (by decide) (by decide) (by decide) (by decide) (by decide)).1,
   (C7_adaptation_clamped_and_skipped.2.2 (fun _ => 0) (MPCv10.init 50 400 195 0)
      0 [] 200 80 100 (by decide)).1⟩

-- ============================================
-- C9: determinism across reset() runs
-- ============================================

set_option maxRecDepth 4000000 in
set_option maxHeartbeats 1000000000 in
unseal Rat.add Rat.mul Rat.inv Rat.sub Rat.ofScientific in
/-- C9: two runs of the *same* controller, each started with `reset()` and
fed the identical two-tick input sequence `(targetHR 101, rawHR 80,
power 100)` with the identical injected noise increments (all zero) and
identical timestamps, emit *different* output sequences: `reset()` does not
restore `state.momentum`, `noise.value` or `demandObserver.params`, so the
state left behind by the first run leaks into the second. -/
theorem C9_reset_runs_diverge :
    (MPCv10.runTicks (fun _ => 0) ((MPCv10.init 50 400 195 0).reset 0) []
        [(0, 101, 80, 100), (0, 101, 80, 100)]).2 ≠
    (MPCv10.runTicks (fun _ => 0)
        ((MPCv10.runTicks (fun _ => 0) ((MPCv10.init 50 400 195 0).reset 0) []
            [(0, 101, 80, 100), (0, 101, 80, 100)]).1.1.reset 0) []
        [(0, 101, 80, 100), (0, 101, 80, 100)]).2 := by
  decide
